import Mathlib

/-!
# Verification of `RS_GraphicView` (src/librecad/src/lib/gui/rs_graphicview.cpp)

A shallow embedding of the viewport state machine of LibreCAD's graphic view:
the model-to-screen affine transforms (`toGuiX`, `toGuiY`, `toGraphX`,
`toGraphY`), the zoom-factor setters (`setFactorX`, `setFactorY`), the
16-slot saved-view ring buffer (`saveView`, `restoreView`), automatic zoom
(`zoomAuto` with `centerOffsetX`/`centerOffsetY`), and the painter-operation
trace of `drawLayer1` (`drawMetaGrid` before `drawGrid`).

C++ `double` arithmetic is modelled by exact rationals `ℚ`; C++ `int` by `ℤ`
(no overflow arises in the claims considered); `QDateTime` instants by their
millisecond count as `ℤ`.  Virtual widget geometry (`getWidth`, `getHeight`)
and data read from collaborating objects (`RS_Grid`, the entity container's
bounding box) are state fields / parameters of the embedding.
-/

set_option autoImplicit false

namespace RSGraphicView

/-- A two-dimensional vector of doubles (`RS_Vector`, only the x/y
components used by the graphic view). -/
structure Vec2 where
  x : ℚ
  y : ℚ
  deriving DecidableEq, Repr

/-- One slot of the saved-view history:
`std::tuple<int, int, RS_Vector>` = (offsetX, offsetY, factor)
as stored by `RS_GraphicView::saveView`. -/
structure SavedView where
  ox : ℤ
  oy : ℤ
  f : Vec2
  deriving DecidableEq, Repr

/-- Pen line types used by the grid drawing code
(`RS2::SolidLine`, `RS2::DotLineTiny`). -/
inductive LineType where
  | solid
  | dotTiny
  deriving DecidableEq, Repr

/-- Pen widths used by the grid drawing code
(`RS2::Width00`, `RS2::Width01`; `other` stands for any other width the
painter's pen may carry on entry). -/
inductive PenWidth where
  | w00
  | w01
  | other
  deriving DecidableEq, Repr

/-- A painter pen as far as `drawLayer1`/`drawGrid`/`drawMetaGrid` set it:
a colour (abstracted to a tag), a width and a line type. -/
structure Pen where
  color : ℕ
  width : PenWidth
  lineType : LineType
  deriving DecidableEq, Repr

/-- The state of `RS_GraphicView` relevant to the verified claims.

* `factor`, `offsetX`, `offsetY`: the viewport transform
  (`RS_Vector factor`, `int offsetX, offsetY`).
* `width`, `height`: the widget size returned by the virtual
  `getWidth()`/`getHeight()`.
* `borderLeft/Right/Top/Bottom`: the view borders.
* `zoomFrozen`: flag tested by `setFactorX`/`setFactorY`/`centerOffsetX/Y`.
* `savedViews`: the 16-slot view history (`QVector` of size 16, modelled as
  a total function on slot numbers), with `savedViewIndex`,
  `savedViewCount` and the throttle time `previousViewTime` (ms).
* `hasContainer`, `hasGraphic`: whether `container` resp.
  `container->getGraphic()` is non-null.
* `graphicModified`: the graphic's modified flag set by `saveView`.
* `printPreview`, `gridOn`, `draftMode`, `hiDpi`, `gridType`: state read
  by `drawLayer1` (`gridOn` is the value of `isGridOn()`, `hiDpi` the
  `dpiX > 96` test, `gridType` the appearance setting).
* `metaGridColor`, `gridColor`: colour tags from `ColorData`. -/
structure GraphicView where
  factor : Vec2
  offsetX : ℤ
  offsetY : ℤ
  width : ℤ
  height : ℤ
  borderLeft : ℤ
  borderRight : ℤ
  borderTop : ℤ
  borderBottom : ℤ
  zoomFrozen : Bool
  savedViews : ℕ → SavedView
  savedViewIndex : ℕ
  savedViewCount : ℕ
  previousViewTime : ℤ
  hasContainer : Bool
  hasGraphic : Bool
  graphicModified : Bool
  printPreview : Bool
  gridOn : Bool
  draftMode : Bool
  hiDpi : Bool
  gridType : ℤ
  metaGridColor : ℕ
  gridColor : ℕ

/-- `savedViews.size()`: the history is constructed with 16 slots
(`savedViews(16)` in the constructor). -/
def savedViewsSize : ℕ := 16

/-- `RS_TOLERANCE` (1.0e-10 = 1/10^10), from the repository's `rs.h`
header (the header sits outside the provided sources; the value is the
program-wide geometric tolerance).  Written with `mkRat` so that the
kernel can evaluate comparisons against it. -/
def RS_TOLERANCE : ℚ := mkRat 1 10000000000

/-- `RS_MAXDOUBLE` (1.0e10), from the repository's `rs.h` header. -/
def RS_MAXDOUBLE : ℚ := 10000000000

/-- `RS_GraphicView::toGuiX`:
`return x * factor.x + offsetX;` -/
def toGuiX (s : GraphicView) (x : ℚ) : ℚ :=
  x * s.factor.x + (s.offsetX : ℚ)

/-- `RS_GraphicView::toGuiY`:
`return -y * factor.y + getHeight() - offsetY;` -/
def toGuiY (s : GraphicView) (y : ℚ) : ℚ :=
  -y * s.factor.y + (s.height : ℚ) - (s.offsetY : ℚ)

/-- `RS_GraphicView::toGraphX` (screen `int` to model coordinate):
`return (x - offsetX) / factor.x;` -/
def toGraphX (s : GraphicView) (x : ℤ) : ℚ :=
  ((x : ℚ) - (s.offsetX : ℚ)) / s.factor.x

/-- `RS_GraphicView::toGraphY` (screen `int` to model coordinate):
`return -(y - getHeight() + offsetY) / factor.y;` -/
def toGraphY (s : GraphicView) (y : ℤ) : ℚ :=
  -((y : ℚ) - (s.height : ℚ) + (s.offsetY : ℚ)) / s.factor.y

/-- `RS_GraphicView::setFactorX`:
`if (!zoomFrozen) { factor.x = std::abs(f); }` -/
def setFactorX (f : ℚ) (s : GraphicView) : GraphicView :=
  if s.zoomFrozen then s else { s with factor := ⟨|f|, s.factor.y⟩ }

/-- `RS_GraphicView::setFactorY`:
`if (!zoomFrozen) { factor.y = std::abs(f); }` -/
def setFactorY (f : ℚ) (s : GraphicView) : GraphicView :=
  if s.zoomFrozen then s else { s with factor := ⟨s.factor.x, |f|⟩ }

/-- `RS_GraphicView::saveView`, called at instant `now` (ms).

```
if (getGraphic()) getGraphic()->setModified(true);
QDateTime noUpdateWindow = QDateTime::currentDateTime().addMSecs(-500);
if (*previousViewTime > noUpdateWindow) return;
*previousViewTime = QDateTime::currentDateTime();
savedViews[savedViewIndex] = std::make_tuple(offsetX, offsetY, factor);
savedViewIndex = (savedViewIndex + 1) % savedViews.size();
if (savedViewCount < savedViews.size()) savedViewCount++;
```

The `previous_zoom_state` signal emitted when the count reaches 1 is a Qt
notification and carries no view state. -/
def saveView (now : ℤ) (s : GraphicView) : GraphicView :=
  let s1 := if s.hasGraphic then { s with graphicModified := true } else s
  if s1.previousViewTime > now - 500 then s1
  else
    { s1 with
      previousViewTime := now
      savedViews := fun i =>
        if i = s1.savedViewIndex then ⟨s1.offsetX, s1.offsetY, s1.factor⟩
        else s1.savedViews i
      savedViewIndex := (s1.savedViewIndex + 1) % savedViewsSize
      savedViewCount :=
        if s1.savedViewCount < savedViewsSize then s1.savedViewCount + 1
        else s1.savedViewCount }

/-- `RS_GraphicView::restoreView`.

```
if (savedViewCount == 0) return;
savedViewCount--;
savedViewIndex = (savedViewIndex + savedViews.size() - 1) % savedViews.size();
offsetX = std::get<0>(savedViews[savedViewIndex]);
offsetY = std::get<1>(savedViews[savedViewIndex]);
factor = std::get<2>(savedViews[savedViewIndex]);
```

`adjustOffsetControls`, `adjustZoomControls` and `redraw` are virtual
hooks into the host GUI toolkit; per the spec they are thin GUI plumbing
and do not touch the viewport fields, so they are modelled as identities. -/
def restoreView (s : GraphicView) : GraphicView :=
  if s.savedViewCount = 0 then s
  else
    let idx := (s.savedViewIndex + savedViewsSize - 1) % savedViewsSize
    { s with
      savedViewCount := s.savedViewCount - 1
      savedViewIndex := idx
      offsetX := (s.savedViews idx).ox
      offsetY := (s.savedViews idx).oy
      factor := (s.savedViews idx).f }

/-- The entity container's bounding-box data as read by `zoomAuto`,
`centerOffsetX` and `centerOffsetY`: `container->getMin()`,
`container->getMax()` and `container->getSize()` (after
`calculateBorders()`). -/
structure ContainerBox where
  minX : ℚ
  minY : ℚ
  maxX : ℚ
  maxY : ℚ
  sizeX : ℚ
  sizeY : ℚ
  deriving DecidableEq, Repr

/-- The `sx` extent computed at the top of `zoomAuto`:
`axis ? std::max((getMax()-getMin()).x, 0.) : getSize().x`. -/
def zoomSx (c : ContainerBox) (ax : Bool) : ℚ :=
  if ax then max (c.maxX - c.minX) 0 else c.sizeX

/-- The `sy` extent computed at the top of `zoomAuto`. -/
def zoomSy (c : ContainerBox) (ax : Bool) : ℚ :=
  if ax then max (c.maxY - c.minY) 0 else c.sizeY

/-- C++ `(int)` cast of a `double`: truncation toward zero. -/
def truncQ (q : ℚ) : ℤ :=
  if 0 ≤ q then ⌊q⌋ else ⌈q⌉

/-- `RS_GraphicView::centerOffsetX` (container present):
```
if (container && !zoomFrozen) {
  offsetX = (int)(((getWidth() - borderLeft - borderRight)
                   - (container->getSize().x * factor.x)) / 2.0
                  - (container->getMin().x * factor.x)) + borderLeft;
}
``` -/
def centerOffsetX (c : ContainerBox) (s : GraphicView) : GraphicView :=
  if s.hasContainer ∧ ¬s.zoomFrozen then
    { s with
      offsetX :=
        truncQ ((((s.width - s.borderLeft - s.borderRight : ℤ) : ℚ)
                  - c.sizeX * s.factor.x) / 2
                - c.minX * s.factor.x) + s.borderLeft }
  else s

/-- `RS_GraphicView::centerOffsetY` (container present):
```
if (container && !zoomFrozen) {
  offsetY = (int)((getHeight() - borderTop - borderBottom
                   - (container->getSize().y * factor.y)) / 2.0
                  - (container->getMin().y * factor.y)) + borderBottom;
}
``` -/
def centerOffsetY (c : ContainerBox) (s : GraphicView) : GraphicView :=
  if s.hasContainer ∧ ¬s.zoomFrozen then
    { s with
      offsetY :=
        truncQ ((((s.height - s.borderTop - s.borderBottom : ℤ) : ℚ)
                  - c.sizeY * s.factor.y) / 2
                - c.minY * s.factor.y) + s.borderBottom }
  else s

/-- The width-fit factor of `zoomAuto`:
`fx = (getWidth() - borderLeft - borderRight) / sx` (when `sx > RS_TOLERANCE`,
otherwise `fx` keeps its initial value `1.0`). -/
def zoomFx (s : GraphicView) (sx : ℚ) : ℚ :=
  if sx > RS_TOLERANCE
  then ((s.width - s.borderLeft - s.borderRight : ℤ) : ℚ) / sx
  else 1

/-- The height-fit factor of `zoomAuto`:
`fy = (getHeight() - borderTop - borderBottom) / sy` (when
`sy > RS_TOLERANCE`, otherwise `1.0`). -/
def zoomFy (s : GraphicView) (sy : ℚ) : ℚ :=
  if sy > RS_TOLERANCE
  then ((s.height - s.borderTop - s.borderBottom : ℤ) : ℚ) / sy
  else 1

/-- `RS_GraphicView::zoomAuto(axis, keepAspectRatio)` at instant `now`,
with the container's bounding box `c` (read only when the container is
present, i.e. `s.hasContainer`).

Follows lines 469-558 of the source: compute the extents `sx`, `sy`;
compute the fit factors, marking an invalid axis in `fFlags`; on
`fFlags == 3` return; on a single invalid axis copy the valid factor;
otherwise equalise through `min` when `keepAspectRatio`; clamp factors
outside `[RS_TOLERANCE, RS_MAXDOUBLE]` to `1.0` and return if both were
invalid; then `saveView`, `setFactorX`, `setFactorY`, `centerOffsetX`,
`centerOffsetY`.  `calculateBorders` only refreshes the container's own
bounds, and `adjustZoomControls` / `adjustOffsetControls` / `redraw` are
GUI-toolkit hooks that leave the viewport fields alone. -/
def zoomAuto (s : GraphicView) (c : ContainerBox)
    (ax keepAspectRatio : Bool) (now : ℤ) : GraphicView :=
  if ¬s.hasContainer then s
  else
    let sx := zoomSx c ax
    let sy := zoomSy c ax
    if ¬sx > RS_TOLERANCE ∧ ¬sy > RS_TOLERANCE then s
    else
      let fx := zoomFx s sx
      let fy := zoomFy s sy
      let fp : ℚ × ℚ :=
        if ¬sx > RS_TOLERANCE then (fy, fy)
        else if ¬sy > RS_TOLERANCE then (fx, fx)
        else if keepAspectRatio then (min fx fy, min fx fy) else (fx, fy)
      if (fp.1 < RS_TOLERANCE ∨ fp.1 > RS_MAXDOUBLE)
          ∧ (fp.2 < RS_TOLERANCE ∨ fp.2 > RS_MAXDOUBLE) then s
      else
        let fx2 := if fp.1 < RS_TOLERANCE ∨ fp.1 > RS_MAXDOUBLE then 1 else fp.1
        let fy2 := if fp.2 < RS_TOLERANCE ∨ fp.2 > RS_MAXDOUBLE then 1 else fp.2
        centerOffsetY c (centerOffsetX c
          (setFactorY fy2 (setFactorX fx2 (saveView now s))))

/-- Round to nearest, ties to even (the rounding used by IEEE
`std::remainder`'s internal quotient). -/
def rneQ (q : ℚ) : ℤ :=
  let f := ⌊q⌋
  let r := q - (f : ℚ)
  if r < 1 / 2 then f
  else if 1 / 2 < r then f + 1
  else if f % 2 = 0 then f else f + 1

/-- C++ `std::remainder(x, y)`: `x - rne(x / y) * y`. -/
def remainderQ (x y : ℚ) : ℚ :=
  x - (rneQ (x / y) : ℚ) * y

/-- C++ `std::round`: round half away from zero. -/
def roundQ (q : ℚ) : ℤ :=
  if 0 ≤ q then ⌊q + 1 / 2⌋ else ⌈q - 1 / 2⌉

/-- The data the drawing code reads from the `RS_Grid` helper object:
the meta-grid line positions `getMetaX()`/`getMetaY()`, the grid points
`getPoints()`, the cell size `getCellVector()`, the meta-grid width
`getMetaGridWidth()` and the isometric flag. -/
structure GridData where
  mx : List ℚ
  my : List ℚ
  pts : List (ℚ × ℚ)
  cellX : ℚ
  cellY : ℚ
  metaWidthX : ℚ
  metaWidthY : ℚ
  isometric : Bool
  deriving DecidableEq, Repr

/-- A painter operation issued by `drawLayer1` and the drawing routines it
calls.  `drawText` abstracts the draft-sign text calls (their geometry
comes from host font metrics). -/
inductive GridPaintOp where
  | setPen (p : Pen)
  | drawLine (x1 y1 x2 y2 : ℚ)
  | drawGridPoint (x y : ℚ)
  | drawText
  deriving DecidableEq, Repr

/-- `RS_GraphicView::drawGrid` as the list of painter operations it
issues (the trailing `updateGridStatusWidget` updates a status widget,
not the painter):

```
painter->setPen({gridColor, RS2::Width00, RS2::SolidLine});
if (gridType == 1) {            // solid grid lines
  for (x : metaX) for (i = 1; i < 10; i++) drawLine(vertical at x - i*cell.x);
  for (y : metaY) for (j = 1; j < 10; j++) drawLine(horizontal at y - j*cell.y);
} else {
  for (v : points) drawGridPoint(toGui(v));
}
``` -/
def drawGridTrace (s : GraphicView) (g : GridData) : List GridPaintOp :=
  GridPaintOp.setPen ⟨s.gridColor, .w00, .solid⟩ ::
    (if s.gridType = 1 then
      (g.mx.flatMap fun x =>
        (List.range' 1 9).map fun i =>
          GridPaintOp.drawLine (toGuiX s (x - (i : ℚ) * g.cellX)) 0
            (toGuiX s (x - (i : ℚ) * g.cellX)) (s.height : ℚ)) ++
      (g.my.flatMap fun y =>
        (List.range' 1 9).map fun j =>
          GridPaintOp.drawLine 0 (toGuiY s (y - (j : ℚ) * g.cellY))
            (s.width : ℚ) (toGuiY s (y - (j : ℚ) * g.cellY)))
    else
      g.pts.map fun v => GridPaintOp.drawGridPoint (toGuiX s v.1) (toGuiY s v.2))

/-- The mutable line endpoints of the isometric meta-grid loop. -/
structure IsoState where
  vp0 : ℚ × ℚ
  vp1 : ℚ × ℚ
  vp2 : ℚ × ℚ
  vp3 : ℚ × ℚ
  deriving DecidableEq, Repr

/-- One iteration of the isometric meta-grid loop at index `i`
(lines 1643-1660): shift the endpoints, then draw `vp0-vp1` and
`vp2-vp3`. -/
def isoStep (cmx cmy : ℤ) (dx dy : ℚ)
    (acc : IsoState × List GridPaintOp) (i : ℤ) : IsoState × List GridPaintOp :=
  let st := acc.1
  let st1 :=
    if i ≤ cmx then
      { st with vp0 := (st.vp0.1 + dx, st.vp0.2), vp2 := (st.vp2.1, st.vp2.2 - dy) }
    else
      { st with vp0 := (st.vp0.1, st.vp0.2 - dy), vp2 := (st.vp2.1 - dx, st.vp2.2) }
  let st2 :=
    if i ≤ cmy then
      { st1 with vp1 := (st1.vp1.1, st1.vp1.2 - dy), vp3 := (st1.vp3.1 - dx, st1.vp3.2) }
    else
      { st1 with vp1 := (st1.vp1.1 + dx, st1.vp1.2), vp3 := (st1.vp3.1, st1.vp3.2 - dy) }
  (st2,
    acc.2 ++
      [GridPaintOp.drawLine st2.vp0.1 st2.vp0.2 st2.vp1.1 st2.vp1.2,
       GridPaintOp.drawLine st2.vp2.1 st2.vp2.2 st2.vp3.1 st2.vp3.2])

/-- The descending index list `n, n-1, ..., 0` of the C++ loop
`for (int i = n; i >= 0; i--)` (empty when `n < 0`). -/
def descIndices (n : ℤ) : List ℤ :=
  if n < 0 then [] else (List.range (n.toNat + 1)).map fun k => n - k

/-- The isometric branch of `drawMetaGrid` (lines 1631-1660), already past
the `!my.size() || dx < 1 || dy < 1` early return. -/
def isoMetaOps (s : GraphicView) (g : GridData) (dx dy : ℚ) : List GridPaintOp :=
  let baseX := toGuiX s (g.mx.getD 0 0)
  let baseY := toGuiY s (g.my.getD 0 0)
  let vp0 : ℚ × ℚ :=
    (-(remainderQ (-baseX) dx) - dx,
     (s.height : ℚ) - remainderQ ((s.height : ℚ) - baseY) dy + dy)
  let vp2 : ℚ × ℚ :=
    ((s.width : ℚ) - remainderQ ((s.width : ℚ) - baseX) dx + dx, vp0.2)
  let cmx := roundQ ((vp2.1 - vp0.1) / dx)
  let cmy := roundQ ((vp0.2 + remainderQ (-baseY) dy + dy) / dy)
  ((descIndices (cmx + cmy + 2)).foldl (isoStep cmx cmy dx dy)
    (⟨vp0, vp0, vp2, vp2⟩, [])).2

/-- `RS_GraphicView::drawMetaGrid` as the list of painter operations it
issues (`grid->updatePointArray()` at the top refreshes the grid object,
not the painter):

```
painter->setPen({metaGridColor, RS2::Width01, gridType==1 ? Solid : DotTiny});
dv = metaGridWidth.scale(factor); dx = |dv.x|; dy = |dv.y|;
for (x : metaX) { drawLine(vertical at toGuiX(x));
                  if (isometric) drawLine(vertical at toGuiX(x)+0.5*dx); }
if (isometric) { if (!my.size() || dx < 1 || dy < 1) return;
                 ... diagonal line loop ... }
else for (y : metaY) drawLine(horizontal at toGuiY(y));
``` -/
def drawMetaGridTrace (s : GraphicView) (g : GridData) : List GridPaintOp :=
  let penLineType : LineType := if s.gridType = 1 then .solid else .dotTiny
  let dx := |g.metaWidthX * s.factor.x|
  let dy := |g.metaWidthY * s.factor.y|
  GridPaintOp.setPen ⟨s.metaGridColor, .w01, penLineType⟩ ::
    (g.mx.flatMap fun x =>
      GridPaintOp.drawLine (toGuiX s x) 0 (toGuiX s x) (s.height : ℚ) ::
        (if g.isometric then
          [GridPaintOp.drawLine (toGuiX s x + 1 / 2 * dx) 0
            (toGuiX s x + 1 / 2 * dx) (s.height : ℚ)]
        else [])) ++
    (if g.isometric then
      if g.my = [] ∨ dx < 1 ∨ dy < 1 then [] else isoMetaOps s g dx dy
    else
      g.my.map fun y =>
        GridPaintOp.drawLine 0 (toGuiY s y) (s.width : ℚ) (toGuiY s y))

/-- `RS_GraphicView::drawDraftSign`: four `drawText` calls (their
bounding rectangles come from the host's font metrics). -/
def drawDraftSignTrace : List GridPaintOp :=
  List.replicate 4 GridPaintOp.drawText

/-- `RS_GraphicView::drawLayer1` as the list of painter operations it
issues.  `pen0` is the painter's pen on entry (`painter->getPen()`),
`paperOps` the operations of `drawPaper` (print-preview only; their
content plays no role here).  The `grid` member is a `unique_ptr`
initialised in the constructor, so `grid && isGridOn()` reduces to
`isGridOn()`:

```
if (isPrintPreview()) drawPaper(painter);
else {
  if (isHiDpi) painter->setPen(pen with Width01);
  if (grid && isGridOn()) { drawMetaGrid(painter); drawGrid(painter); }
  if (isDraftMode()) drawDraftSign(painter);
  if (isHiDpi) painter->setPen(penSaved);
}
``` -/
def drawLayer1Trace (s : GraphicView) (g : GridData) (pen0 : Pen)
    (paperOps : List GridPaintOp) : List GridPaintOp :=
  if s.printPreview then paperOps
  else
    (if s.hiDpi then [GridPaintOp.setPen { pen0 with width := .w01 }] else []) ++
    (if s.gridOn then drawMetaGridTrace s g ++ drawGridTrace s g else []) ++
    (if s.draftMode then drawDraftSignTrace else []) ++
    (if s.hiDpi then [GridPaintOp.setPen pen0] else [])

/-- One call in a history-manipulating call sequence: `saveView` at some
instant, or `restoreView`. -/
inductive ViewOp where
  | save (now : ℤ)
  | restore

/-- Apply one `ViewOp` to the view state. -/
def applyViewOp (s : GraphicView) : ViewOp → GraphicView
  | .save now => saveView now s
  | .restore => restoreView s

/-- Run a sequence of `saveView`/`restoreView` calls. -/
def runViewOps (s : GraphicView) (ops : List ViewOp) : GraphicView :=
  ops.foldl applyViewOp s

/-- A concrete view state (fresh view: empty history, unit factor,
container and graphic present) used to instantiate the theorems. -/
def testView : GraphicView where
  factor := ⟨1, 1⟩
  offsetX := 0
  offsetY := 0
  width := 640
  height := 480
  borderLeft := 0
  borderRight := 0
  borderTop := 0
  borderBottom := 0
  zoomFrozen := false
  savedViews := fun _ => ⟨0, 0, ⟨1, 1⟩⟩
  savedViewIndex := 0
  savedViewCount := 0
  previousViewTime := 0
  hasContainer := true
  hasGraphic := true
  graphicModified := false
  printPreview := false
  gridOn := true
  draftMode := false
  hiDpi := false
  gridType := 0
  metaGridColor := 0
  gridColor := 1

/-- A concrete container bounding box (100 by 50 drawing at the origin). -/
def testBox : ContainerBox where
  minX := 0
  minY := 0
  maxX := 100
  maxY := 50
  sizeX := 100
  sizeY := 50

section HelperLemmas

variable (now : ℤ) (s : GraphicView)

lemma saveView_offsetX : (saveView now s).offsetX = s.offsetX := by
  unfold saveView
  cases hG : s.hasGraphic <;> simp [hG] <;> split <;> rfl

lemma saveView_offsetY : (saveView now s).offsetY = s.offsetY := by
  unfold saveView
  cases hG : s.hasGraphic <;> simp [hG] <;> split <;> rfl

lemma saveView_factor : (saveView now s).factor = s.factor := by
  unfold saveView
  cases hG : s.hasGraphic <;> simp [hG] <;> split <;> rfl

lemma saveView_zoomFrozen : (saveView now s).zoomFrozen = s.zoomFrozen := by
  unfold saveView
  cases hG : s.hasGraphic <;> simp [hG] <;> split <;> rfl

lemma saveView_hasContainer : (saveView now s).hasContainer = s.hasContainer := by
  unfold saveView
  cases hG : s.hasGraphic <;> simp [hG] <;> split <;> rfl

lemma saveView_throttled_eq (h : s.previousViewTime > now - 500) :
    saveView now s = if s.hasGraphic then { s with graphicModified := true } else s := by
  unfold saveView
  cases hG : s.hasGraphic <;> simp_all

lemma saveView_rec_savedViewIndex (h : ¬s.previousViewTime > now - 500) :
    (saveView now s).savedViewIndex = (s.savedViewIndex + 1) % savedViewsSize := by
  unfold saveView
  cases hG : s.hasGraphic <;> simp [hG, h]

lemma saveView_rec_savedViewCount (h : ¬s.previousViewTime > now - 500) :
    (saveView now s).savedViewCount =
      if s.savedViewCount < savedViewsSize then s.savedViewCount + 1
      else s.savedViewCount := by
  unfold saveView
  cases hG : s.hasGraphic <;> simp [hG, h]

lemma saveView_rec_savedViews (h : ¬s.previousViewTime > now - 500) :
    (saveView now s).savedViews = fun i =>
      if i = s.savedViewIndex then ⟨s.offsetX, s.offsetY, s.factor⟩
      else s.savedViews i := by
  unfold saveView
  cases hG : s.hasGraphic <;> simp [hG, h]

lemma restoreView_empty_eq (h : s.savedViewCount = 0) : restoreView s = s := by
  unfold restoreView
  simp [h]

lemma restoreView_pos_savedViewCount (h : s.savedViewCount ≠ 0) :
    (restoreView s).savedViewCount = s.savedViewCount - 1 := by
  unfold restoreView
  simp [h]

lemma restoreView_pos_savedViewIndex (h : s.savedViewCount ≠ 0) :
    (restoreView s).savedViewIndex =
      (s.savedViewIndex + savedViewsSize - 1) % savedViewsSize := by
  unfold restoreView
  simp [h]

lemma restoreView_pos_offsetX (h : s.savedViewCount ≠ 0) :
    (restoreView s).offsetX =
      (s.savedViews ((s.savedViewIndex + savedViewsSize - 1) % savedViewsSize)).ox := by
  unfold restoreView
  simp [h]

lemma restoreView_pos_offsetY (h : s.savedViewCount ≠ 0) :
    (restoreView s).offsetY =
      (s.savedViews ((s.savedViewIndex + savedViewsSize - 1) % savedViewsSize)).oy := by
  unfold restoreView
  simp [h]

lemma restoreView_pos_factor (h : s.savedViewCount ≠ 0) :
    (restoreView s).factor =
      (s.savedViews ((s.savedViewIndex + savedViewsSize - 1) % savedViewsSize)).f := by
  unfold restoreView
  simp [h]

/-- The ring-buffer invariant of the saved-view history. -/
def historyInv (s : GraphicView) : Prop :=
  s.savedViewCount ≤ savedViewsSize ∧ s.savedViewIndex < savedViewsSize

lemma historyInv_saveView (h : historyInv s) : historyInv (saveView now s) := by
  unfold historyInv at h ⊢
  have h16 : savedViewsSize = 16 := rfl
  by_cases hT : s.previousViewTime > now - 500
  · rw [saveView_throttled_eq now s hT]
    cases s.hasGraphic <;> simpa using h
  · rw [saveView_rec_savedViewIndex now s hT, saveView_rec_savedViewCount now s hT]
    rw [h16] at h ⊢
    constructor
    · split <;> omega
    · omega

lemma historyInv_restoreView (h : historyInv s) : historyInv (restoreView s) := by
  unfold historyInv at h ⊢
  have h16 : savedViewsSize = 16 := rfl
  by_cases hc : s.savedViewCount = 0
  · rw [restoreView_empty_eq s hc]
    exact h
  · rw [restoreView_pos_savedViewCount s hc, restoreView_pos_savedViewIndex s hc]
    rw [h16] at h ⊢
    omega

lemma historyInv_runViewOps (ops : List ViewOp) :
    ∀ s : GraphicView, historyInv s → historyInv (runViewOps s ops) := by
  induction ops with
  | nil => intro s h; exact h
  | cons op rest ih =>
    intro s h
    show historyInv (runViewOps (applyViewOp s op) rest)
    apply ih
    cases op with
    | save now => exact historyInv_saveView now s h
    | restore => exact historyInv_restoreView s h

lemma setFactorX_factor_of_unfrozen (f : ℚ) (h : s.zoomFrozen = false) :
    (setFactorX f s).factor = ⟨|f|, s.factor.y⟩ := by
  unfold setFactorX
  simp [h]

lemma setFactorY_factor_of_unfrozen (f : ℚ) (h : s.zoomFrozen = false) :
    (setFactorY f s).factor = ⟨s.factor.x, |f|⟩ := by
  unfold setFactorY
  simp [h]

lemma setFactorX_zoomFrozen (f : ℚ) : (setFactorX f s).zoomFrozen = s.zoomFrozen := by
  unfold setFactorX
  split <;> rfl

lemma setFactorY_zoomFrozen (f : ℚ) : (setFactorY f s).zoomFrozen = s.zoomFrozen := by
  unfold setFactorY
  split <;> rfl

lemma centerOffsetX_factor (c : ContainerBox) : (centerOffsetX c s).factor = s.factor := by
  unfold centerOffsetX
  split <;> rfl

lemma centerOffsetY_factor (c : ContainerBox) : (centerOffsetY c s).factor = s.factor := by
  unfold centerOffsetY
  split <;> rfl

end HelperLemmas

/-- C1: Affine transform consistency (round trip): for every view state with
`factor.x ≠ 0` and `factor.y ≠ 0` and every integer screen coordinate pair
`(x, y)`, mapping screen to model coordinates and back is the identity over
exact arithmetic: `toGuiX (toGraphX x) = x` and `toGuiY (toGraphY y) = y`. -/
theorem toGui_toGraph_roundTrip (s : GraphicView) (x y : ℤ)
    (hx : s.factor.x ≠ 0) (hy : s.factor.y ≠ 0) :
    toGuiX s (toGraphX s x) = (x : ℚ) ∧ toGuiY s (toGraphY s y) = (y : ℚ) := by
  unfold toGuiX toGuiY toGraphX toGraphY
  constructor
  · field_simp
  · field_simp
    ring

/-- Witness for C1: the round trip at the concrete view `testView` and
screen coordinates (3, 7). -/
theorem toGui_toGraph_roundTrip_witness :
    testView.factor.x ≠ 0 ∧ testView.factor.y ≠ 0 ∧
      (toGuiX testView (toGraphX testView 3) = (3 : ℚ) ∧
       toGuiY testView (toGraphY testView 7) = (7 : ℚ)) :=
  ⟨by decide, by decide, toGui_toGraph_roundTrip testView 3 7 (by decide) (by decide)⟩

/-- C2: The view history is a bounded ring buffer: from a freshly
constructed view (`savedViewCount = 0`, `savedViewIndex = 0`, 16 slots),
after every sequence of `saveView` / `restoreView` calls the state
satisfies `savedViewCount ≤ 16` and `savedViewIndex < 16` (both are `ℕ`,
so nonnegativity is inherent). -/
theorem viewHistory_bounds (s0 : GraphicView) (h0c : s0.savedViewCount = 0)
    (h0i : s0.savedViewIndex = 0) (ops : List ViewOp) :
    (runViewOps s0 ops).savedViewCount ≤ 16 ∧
      (runViewOps s0 ops).savedViewIndex < 16 := by
  have h0 : historyInv s0 := by
    unfold historyInv
    rw [h0c, h0i]
    exact ⟨by decide, by decide⟩
  exact historyInv_runViewOps ops s0 h0

/-- Witness for C2: two saves followed by three restores from the fresh
view `testView`. -/
theorem viewHistory_bounds_witness :
    testView.savedViewCount = 0 ∧ testView.savedViewIndex = 0 ∧
      ((runViewOps testView
          [ViewOp.save 1000, ViewOp.save 2000, ViewOp.restore,
           ViewOp.restore, ViewOp.restore]).savedViewCount ≤ 16 ∧
       (runViewOps testView
          [ViewOp.save 1000, ViewOp.save 2000, ViewOp.restore,
           ViewOp.restore, ViewOp.restore]).savedViewIndex < 16) :=
  ⟨rfl, rfl,
    viewHistory_bounds testView rfl rfl
      [ViewOp.save 1000, ViewOp.save 2000, ViewOp.restore,
       ViewOp.restore, ViewOp.restore]⟩

/-- C3: Save/restore round trip of the viewport: when `saveView` actually
records (at least 500 ms elapsed since the previously recorded view,
i.e. `previousViewTime ≤ now - 500`) and the container is set, calling
`saveView` then `restoreView` restores `offsetX`, `offsetY` and `factor`
to their values at the time of the `saveView` call.  The hypothesis
`savedViewIndex < 16` holds in every reachable state (constructor plus
the C2 invariant). -/
theorem saveView_restoreView_roundTrip (now : ℤ) (s : GraphicView)
    (hrec : ¬s.previousViewTime > now - 500)
    (hcont : s.hasContainer = true)
    (hidx : s.savedViewIndex < 16) :
    (restoreView (saveView now s)).offsetX = s.offsetX ∧
    (restoreView (saveView now s)).offsetY = s.offsetY ∧
    (restoreView (saveView now s)).factor = s.factor := by
  have hcnt : (saveView now s).savedViewCount ≠ 0 := by
    rw [saveView_rec_savedViewCount now s hrec]
    have h16 : savedViewsSize = 16 := rfl
    rw [h16]
    split <;> omega
  have hidx' : (saveView now s).savedViewIndex = (s.savedViewIndex + 1) % savedViewsSize :=
    saveView_rec_savedViewIndex now s hrec
  have hviews := saveView_rec_savedViews now s hrec
  have hback : ((saveView now s).savedViewIndex + savedViewsSize - 1) % savedViewsSize
      = s.savedViewIndex := by
    rw [hidx']
    have h16 : savedViewsSize = 16 := rfl
    rw [h16]
    omega
  rw [restoreView_pos_offsetX _ hcnt, restoreView_pos_offsetY _ hcnt,
    restoreView_pos_factor _ hcnt, hback, hviews]
  simp

/-- Witness for C3: save at t = 1000 ms on `testView` (last recorded view
at t = 0), then restore. -/
theorem saveView_restoreView_roundTrip_witness :
    ¬testView.previousViewTime > 1000 - 500 ∧ testView.hasContainer = true ∧
      testView.savedViewIndex < 16 ∧
      ((restoreView (saveView 1000 testView)).offsetX = testView.offsetX ∧
       (restoreView (saveView 1000 testView)).offsetY = testView.offsetY ∧
       (restoreView (saveView 1000 testView)).factor = testView.factor) :=
  ⟨by decide, rfl, by decide,
    saveView_restoreView_roundTrip 1000 testView (by decide) rfl (by decide)⟩

/-- C7: The model-to-pixel map flips the y axis: with `factor.y > 0`,
`toGuiY` is strictly decreasing, while with `factor.x > 0` `toGuiX` is
strictly increasing. -/
theorem toGui_axis_monotone (s : GraphicView) (x1 x2 y1 y2 : ℚ)
    (hfx : 0 < s.factor.x) (hfy : 0 < s.factor.y)
    (hx : x1 < x2) (hy : y1 < y2) :
    toGuiX s x1 < toGuiX s x2 ∧ toGuiY s y1 > toGuiY s y2 := by
  unfold toGuiX toGuiY
  constructor
  · have := mul_lt_mul_of_pos_right hx hfx
    linarith
  · have := mul_lt_mul_of_pos_right hy hfy
    linarith

/-- Witness for C7 at `testView`, x pair (0, 1) and y pair (0, 1). -/
theorem toGui_axis_monotone_witness :
    0 < testView.factor.x ∧ 0 < testView.factor.y ∧
      (toGuiX testView 0 < toGuiX testView 1 ∧
       toGuiY testView 0 > toGuiY testView 1) :=
  ⟨by decide, by decide,
    toGui_axis_monotone testView 0 1 0 1 (by decide) (by decide)
      (by decide) (by decide)⟩

/-- C8: `saveView` throttles repeated saves: when the previously recorded
view time is within 500 ms of the current time, the saved-view history,
the current index and count, and the viewport are unchanged; only the
graphic's modified flag is set (when a graphic is present). -/
theorem saveView_throttled_noop (now : ℤ) (s : GraphicView)
    (h : s.previousViewTime > now - 500) :
    (saveView now s).savedViews = s.savedViews ∧
    (saveView now s).savedViewIndex = s.savedViewIndex ∧
    (saveView now s).savedViewCount = s.savedViewCount ∧
    (saveView now s).offsetX = s.offsetX ∧
    (saveView now s).offsetY = s.offsetY ∧
    (saveView now s).factor = s.factor ∧
    (s.hasGraphic = true → (saveView now s).graphicModified = true) := by
  rw [saveView_throttled_eq now s h]
  cases hG : s.hasGraphic <;> simp [hG]

/-- Witness for C8: a save at t = 100 ms on `testView` (last recorded
view at t = 0) is dropped. -/
theorem saveView_throttled_noop_witness :
    testView.previousViewTime > 100 - 500 ∧
      ((saveView 100 testView).savedViews = testView.savedViews ∧
       (saveView 100 testView).savedViewIndex = testView.savedViewIndex ∧
       (saveView 100 testView).savedViewCount = testView.savedViewCount ∧
       (saveView 100 testView).offsetX = testView.offsetX ∧
       (saveView 100 testView).offsetY = testView.offsetY ∧
       (saveView 100 testView).factor = testView.factor ∧
       (testView.hasGraphic = true → (saveView 100 testView).graphicModified = true)) :=
  ⟨by decide, saveView_throttled_noop 100 testView (by decide)⟩

/-- C9: `restoreView` on an empty history is a no-op: with
`savedViewCount = 0` the whole state is unchanged. -/
theorem restoreView_empty_noop (s : GraphicView) (h : s.savedViewCount = 0) :
    restoreView s = s :=
  restoreView_empty_eq s h

/-- Witness for C9: restoring on the fresh view `testView`. -/
theorem restoreView_empty_noop_witness :
    testView.savedViewCount = 0 ∧ restoreView testView = testView :=
  ⟨rfl, restoreView_empty_noop testView rfl⟩

/-- C10: `setFactorX` / `setFactorY` never store a negative factor and
respect the zoom freeze: when not frozen, the written component is the
absolute value of the argument (the other component untouched); when
frozen, the factor is unchanged. -/
theorem setFactor_abs_respects_freeze (s : GraphicView) (f : ℚ) :
    (setFactorX f s).factor
        = (if s.zoomFrozen then s.factor else ⟨|f|, s.factor.y⟩) ∧
    (setFactorY f s).factor
        = (if s.zoomFrozen then s.factor else ⟨s.factor.x, |f|⟩) := by
  unfold setFactorX setFactorY
  constructor <;> split <;> rfl

/-- C4: Zoom-to-fit on a degenerate drawing is a no-op on the viewport:
when the bounding-box extent is at most `RS_TOLERANCE` in both x and y,
`zoomAuto` returns with the whole view state (factors, offsets and the
saved-view history included) unchanged. -/
theorem zoomAuto_degenerate_noop (s : GraphicView) (c : ContainerBox)
    (ax keepAspectRatio : Bool) (now : ℤ)
    (hx : zoomSx c ax ≤ RS_TOLERANCE) (hy : zoomSy c ax ≤ RS_TOLERANCE) :
    zoomAuto s c ax keepAspectRatio now = s := by
  unfold zoomAuto
  by_cases hc : s.hasContainer = true
  · rw [if_neg (by simp [hc])]
    rw [if_pos ⟨not_lt.mpr hx, not_lt.mpr hy⟩]
  · rw [if_pos (by simp [hc])]

/-- Witness for C4: a container collapsed to the single point (5, 5)
(zero extent in both directions). -/
theorem zoomAuto_degenerate_noop_witness :
    zoomSx ⟨5, 5, 5, 5, 0, 0⟩ false ≤ RS_TOLERANCE ∧
      zoomSy ⟨5, 5, 5, 5, 0, 0⟩ false ≤ RS_TOLERANCE ∧
      zoomAuto testView ⟨5, 5, 5, 5, 0, 0⟩ false true 9999 = testView :=
  ⟨by decide, by decide,
    zoomAuto_degenerate_noop testView ⟨5, 5, 5, 5, 0, 0⟩ false true 9999
      (by decide) (by decide)⟩

/-- C5: Zoom-to-fit preserves the aspect ratio when asked: with both
extents above `RS_TOLERANCE`, zoom not frozen and the common factor
inside the valid range (so the factors are actually changed), after
`zoomAuto(axis, keepAspectRatio = true)` both factors equal the minimum
of the width-fit factor `zoomFx` and the height-fit factor `zoomFy`. -/
theorem zoomAuto_keepAspect_min (s : GraphicView) (c : ContainerBox)
    (ax : Bool) (now : ℤ)
    (hc : s.hasContainer = true)
    (hsx : zoomSx c ax > RS_TOLERANCE) (hsy : zoomSy c ax > RS_TOLERANCE)
    (hfz : s.zoomFrozen = false)
    (hlo : ¬min (zoomFx s (zoomSx c ax)) (zoomFy s (zoomSy c ax)) < RS_TOLERANCE)
    (hhi : ¬min (zoomFx s (zoomSx c ax)) (zoomFy s (zoomSy c ax)) > RS_MAXDOUBLE) :
    (zoomAuto s c ax true now).factor.x
        = min (zoomFx s (zoomSx c ax)) (zoomFy s (zoomSy c ax)) ∧
    (zoomAuto s c ax true now).factor.y
        = min (zoomFx s (zoomSx c ax)) (zoomFy s (zoomSy c ax)) := by
  have hm0 : (0 : ℚ) < min (zoomFx s (zoomSx c ax)) (zoomFy s (zoomSy c ax)) := by
    have h1 : RS_TOLERANCE ≤ min (zoomFx s (zoomSx c ax)) (zoomFy s (zoomSy c ax)) :=
      not_lt.mp hlo
    have h2 : (0 : ℚ) < RS_TOLERANCE := by norm_num [RS_TOLERANCE]
    linarith
  have hz1 : (saveView now s).zoomFrozen = false :=
    (saveView_zoomFrozen now s).trans hfz
  have hz2 : (setFactorX (min (zoomFx s (zoomSx c ax)) (zoomFy s (zoomSy c ax)))
      (saveView now s)).zoomFrozen = false :=
    (setFactorX_zoomFrozen (saveView now s) _).trans hz1
  have hstep : zoomAuto s c ax true now =
      centerOffsetY c (centerOffsetX c
        (setFactorY (min (zoomFx s (zoomSx c ax)) (zoomFy s (zoomSy c ax)))
          (setFactorX (min (zoomFx s (zoomSx c ax)) (zoomFy s (zoomSy c ax)))
            (saveView now s)))) := by
    simp [zoomAuto, hc, hsx, hsy, hlo, hhi]
  rw [hstep, centerOffsetY_factor, centerOffsetX_factor,
    setFactorY_factor_of_unfrozen _ _ hz2,
    setFactorX_factor_of_unfrozen _ _ hz1]
  simp [abs_of_pos hm0]

/-- Witness for C5: a 1-by-1 drawing fit into the 640-by-480 `testView`
(width-fit 640, height-fit 480; both factors end at 480). -/
theorem zoomAuto_keepAspect_min_witness :
    testView.hasContainer = true ∧
      zoomSx ⟨0, 0, 1, 1, 1, 1⟩ false > RS_TOLERANCE ∧
      zoomSy ⟨0, 0, 1, 1, 1, 1⟩ false > RS_TOLERANCE ∧
      testView.zoomFrozen = false ∧
      ¬min (zoomFx testView (zoomSx ⟨0, 0, 1, 1, 1, 1⟩ false))
          (zoomFy testView (zoomSy ⟨0, 0, 1, 1, 1, 1⟩ false)) < RS_TOLERANCE ∧
      ¬min (zoomFx testView (zoomSx ⟨0, 0, 1, 1, 1, 1⟩ false))
          (zoomFy testView (zoomSy ⟨0, 0, 1, 1, 1, 1⟩ false)) > RS_MAXDOUBLE ∧
      ((zoomAuto testView ⟨0, 0, 1, 1, 1, 1⟩ false true 9999).factor.x
          = min (zoomFx testView (zoomSx ⟨0, 0, 1, 1, 1, 1⟩ false))
              (zoomFy testView (zoomSy ⟨0, 0, 1, 1, 1, 1⟩ false)) ∧
       (zoomAuto testView ⟨0, 0, 1, 1, 1, 1⟩ false true 9999).factor.y
          = min (zoomFx testView (zoomSx ⟨0, 0, 1, 1, 1, 1⟩ false))
              (zoomFy testView (zoomSy ⟨0, 0, 1, 1, 1, 1⟩ false))) :=
  ⟨rfl, by decide, by decide, rfl,
    by simp [zoomFx, zoomFy, zoomSx, zoomSy, testView, div_one]; decide,
    by simp [zoomFx, zoomFy, zoomSx, zoomSy, testView, div_one]; decide,
    zoomAuto_keepAspect_min testView ⟨0, 0, 1, 1, 1, 1⟩ false 9999 rfl
      (by decide) (by decide) rfl
      (by simp [zoomFx, zoomFy, zoomSx, zoomSy, testView, div_one]; decide)
      (by simp [zoomFx, zoomFy, zoomSx, zoomSy, testView, div_one]; decide)⟩

/-- C6: Layered draw order of the grid: when not in print preview and the
grid is on, the painter operations of one `drawLayer1` call decompose as a
prefix (the hi-DPI pen setup), then all operations issued by
`drawMetaGrid`, then all operations issued by `drawGrid`, then a suffix
(draft sign and pen restore) — so every meta-grid operation precedes every
grid operation. -/
theorem drawMetaGrid_before_drawGrid (s : GraphicView) (g : GridData)
    (pen0 : Pen) (paperOps : List GridPaintOp)
    (hpp : s.printPreview = false) (hgrid : s.gridOn = true) :
    ∃ pre post, drawLayer1Trace s g pen0 paperOps =
      pre ++ drawMetaGridTrace s g ++ drawGridTrace s g ++ post := by
  refine ⟨(if s.hiDpi then [GridPaintOp.setPen { pen0 with width := .w01 }] else []),
    (if s.draftMode then drawDraftSignTrace else []) ++
      (if s.hiDpi then [GridPaintOp.setPen pen0] else []), ?_⟩
  unfold drawLayer1Trace
  simp [hpp, hgrid, List.append_assoc]

/-- Witness for C6 at `testView` with an empty grid layout and a default
pen. -/
theorem drawMetaGrid_before_drawGrid_witness :
    testView.printPreview = false ∧ testView.gridOn = true ∧
      ∃ pre post, drawLayer1Trace testView ⟨[], [], [], 1, 1, 1, 1, false⟩
          ⟨0, .other, .solid⟩ [] =
        pre ++ drawMetaGridTrace testView ⟨[], [], [], 1, 1, 1, 1, false⟩ ++
          drawGridTrace testView ⟨[], [], [], 1, 1, 1, 1, false⟩ ++ post :=
  ⟨rfl, rfl,
    drawMetaGrid_before_drawGrid testView ⟨[], [], [], 1, 1, 1, 1, false⟩
      ⟨0, .other, .solid⟩ [] rfl rfl⟩

end RSGraphicView
